import Mathlib

/-!
Verification of the class-session inference and attendance-finalization
logic of the Student Attendance Management System.

The embedding below translates the core routes of `src/git.py`:

* `punch` — the `/attendance/punch` handler (session-window engine for
  `punch_in`, session finalizer for `punch_out`);
* the attendance aggregation of `student_dashboard`;
* the CSV assembly of `download_report`.

Timestamps are modelled as integer seconds (`Int`); all Python
`timedelta` comparisons in the source are against whole-second constants
(300 s = 5 min, 3600 s = 1 h), so integer seconds are a faithful carrier.
The attendance store is the list of `Attendance` rows, in insertion
order (`db.session.add` appends).
-/

namespace SAMS

/-- Attendance status. The source stores a string column but only ever
writes the two values `'Present'` and `'Late'` (in `punch`). -/
inductive Status
  | present
  | late
deriving DecidableEq, Repr, Inhabited

/-- One row of the `Attendance` table. -/
structure AttendanceRecord where
  student_id : Nat
  subject_id : Nat
  teacher_id : Nat
  punch_in_time : Int
  punch_out_time : Option Int
  status : Status
deriving DecidableEq, Repr, Inhabited

/-- User roles, from the `User` model. -/
inductive Role
  | admin
  | teacher
  | student
deriving DecidableEq, Repr, Inhabited

/-- The fields of the `User` model that the attendance logic reads. -/
structure User where
  id : Nat
  enrollment_number : String
  full_name : String
  role : Role
deriving DecidableEq, Repr, Inhabited

/-- The lookup `User.query.filter_by(enrollment_number=..., role=User.STUDENT)
.first()` of line 889 of `src/git.py`. -/
def findStudent (users : List User) (e : String) : Option User :=
  users.find? (fun u => u.enrollment_number == e && u.role == Role.student)

/-- Does the record belong to this (teacher, subject) pairing? -/
def matchesPair (tid sid : Nat) (r : AttendanceRecord) : Bool :=
  r.teacher_id == tid && r.subject_id == sid

/-- Maximum punch-in time over a list of records, `none` on the empty list. -/
def maxPunchIn : List AttendanceRecord → Option Int
  | [] => none
  | r :: rs =>
    match maxPunchIn rs with
    | none => some r.punch_in_time
    | some m => some (max r.punch_in_time m)

/-- The query `db.func.max(Attendance.punch_in_time)` filtered by teacher and
subject (line 896 of `src/git.py`). -/
def latest_class_start (records : List AttendanceRecord) (tid sid : Nat) : Option Int :=
  maxPunchIn (records.filter (matchesPair tid sid))

/-- The Python guard `latest_class_start and (now - latest_class_start)
.total_seconds() < 3600` (line 900): returns the session anchor when the
latest class start exists and is less than one hour old. -/
def activeLatest (latest : Option Int) (now : Int) : Option Int :=
  match latest with
  | none => none
  | some t => if now - t < 3600 then some t else none

/-- The duplicate-punch query of lines 902–907: a record of this student
for this (teacher, subject) with `punch_in_time >= latest_class_start`. -/
def dupPred (student_id tid sid : Nat) (t : Int) (r : AttendanceRecord) : Bool :=
  r.student_id == student_id && r.teacher_id == tid && r.subject_id == sid &&
    decide (t ≤ r.punch_in_time)

/-- The record created on the new-session branch (lines 926–932):
`status='Present'`, `punch_in_time=now`, no punch-out. -/
def newSessionRecord (student_id sid tid : Nat) (now : Int) : AttendanceRecord :=
  { student_id := student_id, subject_id := sid, teacher_id := tid,
    punch_in_time := now, punch_out_time := none, status := Status.present }

/-- The record created on the active-session branch (lines 914–920):
`status='Late' if (now - latest_class_start).total_seconds() > 300 else 'Present'`. -/
def joinRecord (student_id sid tid : Nat) (now t : Int) : AttendanceRecord :=
  { student_id := student_id, subject_id := sid, teacher_id := tid,
    punch_in_time := now, punch_out_time := none,
    status := if 300 < now - t then Status.late else Status.present }

/-- The punch-out selection of lines 945–950: same (teacher, subject),
`punch_in_time >= latest_class_start - 5 minutes`, not yet punched out. -/
def finalizeCond (tid sid : Nat) (t : Int) (r : AttendanceRecord) : Bool :=
  r.teacher_id == tid && r.subject_id == sid &&
    decide (t - 300 ≤ r.punch_in_time) && r.punch_out_time == none

/-- The two actions of the `/attendance/punch` route. -/
inductive Action
  | punch_in
  | punch_out
deriving DecidableEq, Repr

/-- Errors flashed by the `punch` route. -/
inductive PunchError
  | studentNotFound
  | alreadyPunched
  | noActiveSession
deriving DecidableEq, Repr

/-- Successful outcomes of the `punch` route. -/
inductive PunchOutcome
  | punchedIn (r : AttendanceRecord)
  | newSession (r : AttendanceRecord)
  | finalized (count : Nat)
deriving DecidableEq, Repr

/-- The `/attendance/punch` handler (lines 880–959 of `src/git.py`).
Returns the updated store together with the outcome; on every error the
store is returned unchanged, matching the source's early `redirect`
before any `db.session.add`/mutation. -/
def punch (users : List User) (records : List AttendanceRecord)
    (teacher_id subject_id : Nat) (enrollment_number : String)
    (action : Action) (now : Int) :
    List AttendanceRecord × Except PunchError PunchOutcome :=
  match findStudent users enrollment_number with
  | none => (records, Except.error PunchError.studentNotFound)
  | some student =>
    match action with
    | Action.punch_in =>
      match activeLatest (latest_class_start records teacher_id subject_id) now with
      | some t =>
        if records.any (dupPred student.id teacher_id subject_id t) then
          (records, Except.error PunchError.alreadyPunched)
        else
          (records ++ [joinRecord student.id subject_id teacher_id now t],
           Except.ok (PunchOutcome.punchedIn (joinRecord student.id subject_id teacher_id now t)))
      | none =>
        (records ++ [newSessionRecord student.id subject_id teacher_id now],
         Except.ok (PunchOutcome.newSession (newSessionRecord student.id subject_id teacher_id now)))
    | Action.punch_out =>
      match latest_class_start records teacher_id subject_id with
      | none => (records, Except.error PunchError.noActiveSession)
      | some t =>
        (records.map (fun r =>
           if finalizeCond teacher_id subject_id t r
           then { r with punch_out_time := some now } else r),
         Except.ok (PunchOutcome.finalized
           ((records.filter (finalizeCond teacher_id subject_id t)).length)))

/-! ### Student dashboard aggregation (lines 759–791) -/

/-- All attendance records of one student
(`Attendance.query.filter_by(student_id=user.id)`, line 759). -/
def studentRecords (records : List AttendanceRecord) (student_id : Nat) : List AttendanceRecord :=
  records.filter (fun r => r.student_id == student_id)

/-- Per-subject total: every record of the student in the subject counts
(line 775). -/
def subjectTotal (records : List AttendanceRecord) (student_id sub_id : Nat) : Nat :=
  ((studentRecords records student_id).filter (fun r => r.subject_id == sub_id)).length

/-- Per-subject attended: only records with `status == 'Present'` count
(lines 771–772). -/
def subjectAttended (records : List AttendanceRecord) (student_id sub_id : Nat) : Nat :=
  ((studentRecords records student_id).filter
    (fun r => r.subject_id == sub_id && r.status == Status.present)).length

/-- Per-subject count of `'Late'` records (not counted as attended by
`student_dashboard`). -/
def subjectLate (records : List AttendanceRecord) (student_id sub_id : Nat) : Nat :=
  ((studentRecords records student_id).filter
    (fun r => r.subject_id == sub_id && r.status == Status.late)).length

/-- The counter `total_attended` of lines 762/773: Present records across all
subjects. -/
def totalAttended (records : List AttendanceRecord) (student_id : Nat) : Nat :=
  ((studentRecords records student_id).filter (fun r => r.status == Status.present)).length

/-- The counter `total_classes` of lines 763/776: all records of the student. -/
def totalClasses (records : List AttendanceRecord) (student_id : Nat) : Nat :=
  (studentRecords records student_id).length

/-- The expression `(attended / total) * 100 if total > 0 else 100` of
lines 780/782. -/
def percentage (attended total : Nat) : ℚ :=
  if 0 < total then (attended : ℚ) / (total : ℚ) * 100 else 100

/-- Per-subject percentage of line 780. -/
def subjectPercentage (records : List AttendanceRecord) (student_id sub_id : Nat) : ℚ :=
  percentage (subjectAttended records student_id sub_id) (subjectTotal records student_id sub_id)

/-- The value `overall_percentage` of line 782. -/
def overallPercentage (records : List AttendanceRecord) (student_id : Nat) : ℚ :=
  percentage (totalAttended records student_id) (totalClasses records student_id)

/-- The flag `low_attendance = overall_percentage < 75` of line 791. -/
def low_attendance (records : List AttendanceRecord) (student_id : Nat) : Bool :=
  decide (overallPercentage records student_id < 75)

/-! ### CSV report (`download_report`, lines 961–1002) -/

/-- The fields of the `Subject` model the report reads. -/
structure Subject where
  id : Nat
  code : String
deriving DecidableEq, Repr, Inhabited

/-- Lookup of a user row by primary key (the `record.student` relationship). -/
def findUserById (users : List User) (uid : Nat) : Option User :=
  users.find? (fun u => u.id == uid)

/-- The descending order on punch-in time used by
`order_by(Attendance.punch_in_time.desc())`. -/
def punchInGE (a b : AttendanceRecord) : Prop :=
  b.punch_in_time ≤ a.punch_in_time

instance : DecidableRel punchInGE := fun _ _ => Int.decLe _ _

instance : IsTotal AttendanceRecord punchInGE :=
  ⟨fun a b => le_total b.punch_in_time a.punch_in_time⟩

instance : IsTrans AttendanceRecord punchInGE :=
  ⟨fun _ _ _ h1 h2 => le_trans h2 h1⟩

/-- The sort `order_by(Attendance.punch_in_time.desc())`: a stable sort with
the largest punch-in time first. -/
def sortDesc (l : List AttendanceRecord) : List AttendanceRecord :=
  List.insertionSort punchInGE l

/-- The query of line 975: all attendance records of the subject, inner-joined
with `User` on the student id (the join keeps records whose student row
exists), ordered by punch-in time descending. -/
def reportRecords (users : List User) (records : List AttendanceRecord) (sid : Nat) :
    List AttendanceRecord :=
  sortDesc (records.filter
    (fun r => r.subject_id == sid && (findUserById users r.student_id).isSome))

/-- The header row of line 982. -/
def reportHeader : List String :=
  ["Date", "Subject Code", "Enrollment Number", "Student Name",
   "Punch In Time", "Punch Out Time", "Status"]

/-- Abstraction of `strftime('%Y-%m-%d')` on our integer-second timestamps:
renders the day number `t / 86400`. The day number determines the calendar
date bijectively, so row identity and equality are preserved. -/
def fmtDate (t : Int) : String := toString (t / 86400)

/-- Abstraction of `strftime('%H:%M:%S')`: renders the second-of-day
`t % 86400`, which determines the time of day bijectively. -/
def fmtTime (t : Int) : String := toString (t % 86400)

/-- The string stored in the `status` column. -/
def statusStr : Status → String
  | Status.present => "Present"
  | Status.late => "Late"

/-- One data row of the CSV (lines 986–996); an open record renders
`'N/A'` in the Punch Out Time column (line 993). -/
def reportRow (users : List User) (subject : Subject) (r : AttendanceRecord) : List String :=
  [fmtDate r.punch_in_time,
   subject.code,
   (match findUserById users r.student_id with
    | some u => u.enrollment_number
    | none => ""),
   (match findUserById users r.student_id with
    | some u => u.full_name
    | none => ""),
   fmtTime r.punch_in_time,
   (match r.punch_out_time with
    | some t2 => fmtTime t2
    | none => "N/A"),
   statusStr r.status]

/-- The CSV contents written by `download_report` for a subject:
header row, then one row per record of `reportRecords`. -/
def download_report (users : List User) (records : List AttendanceRecord)
    (subject : Subject) : List (List String) :=
  reportHeader :: (reportRecords users records subject.id).map (reportRow users subject)

/-! ### Operation sequences (for the invariants over histories) -/

/-- One request to the `/attendance/punch` route. -/
structure Op where
  teacher_id : Nat
  subject_id : Nat
  enrollment_number : String
  action : Action
  now : Int
deriving DecidableEq, Repr

/-- The store after serving one request. -/
def applyOp (users : List User) (records : List AttendanceRecord) (op : Op) :
    List AttendanceRecord :=
  (punch users records op.teacher_id op.subject_id op.enrollment_number op.action op.now).1

/-- The store after serving a sequence of requests, oldest first. -/
def applyOps (users : List User) (ops : List Op) (records : List AttendanceRecord) :
    List AttendanceRecord :=
  ops.foldl (applyOp users) records

/-- The store after a sequence of `punch_in` requests to one
(teacher, subject) pairing: each list entry is (enrollment number, time). -/
def punchInSeq (users : List User) (tid sid : Nat) (l : List (String × Int))
    (records : List AttendanceRecord) : List AttendanceRecord :=
  l.foldl (fun recs p => (punch users recs tid sid p.1 Action.punch_in p.2).1) records

example : punch [⟨7, "E1", "A", Role.student⟩] [] 1 2 "E1" Action.punch_in 1000
    = ([⟨7, 2, 1, 1000, none, Status.present⟩],
       Except.ok (PunchOutcome.newSession ⟨7, 2, 1, 1000, none, Status.present⟩)) := rfl

example : punch [⟨7, "E1", "A", Role.student⟩] [⟨7, 2, 1, 1000, none, Status.present⟩]
      1 2 "E1" Action.punch_in 1400
    = ([⟨7, 2, 1, 1000, none, Status.present⟩], Except.error PunchError.alreadyPunched) := rfl

example : punch [⟨7, "E1", "A", Role.student⟩, ⟨8, "E2", "B", Role.student⟩]
      [⟨7, 2, 1, 1000, none, Status.present⟩] 1 2 "E2" Action.punch_in 1400
    = ([⟨7, 2, 1, 1000, none, Status.present⟩, ⟨8, 2, 1, 1400, none, Status.late⟩],
       Except.ok (PunchOutcome.punchedIn ⟨8, 2, 1, 1400, none, Status.late⟩)) := rfl

example : punch [⟨7, "E1", "A", Role.student⟩] [⟨7, 2, 1, 1000, none, Status.present⟩]
      1 2 "E1" Action.punch_out 2000
    = ([⟨7, 2, 1, 1000, some 2000, Status.present⟩],
       Except.ok (PunchOutcome.finalized 1)) := rfl

/-! ### Concrete fixtures used by the witnesses -/

/-- Two registered students. -/
def exUsers : List User :=
  [⟨7, "E1", "A", Role.student⟩, ⟨8, "E2", "B", Role.student⟩]

/-- One open Present record of student 7 for teacher 1, subject 2. -/
def exRecords : List AttendanceRecord :=
  [⟨7, 2, 1, 1000, none, Status.present⟩]

/-- A store holding only records of an unrelated (teacher, subject) pairing. -/
def otherPairRecords : List AttendanceRecord :=
  [⟨7, 9, 9, 1000, none, Status.present⟩]

/-! ### C5: punch-out with no session -/

/-- C5: a `punch_out` on a (teacher, subject) pairing with no attendance
record at all (no `latest_class_start` exists) returns the
no-active-session error, and the store is returned unchanged: no record
is mutated. -/
theorem C5_punch_out_no_session (users : List User) (records : List AttendanceRecord)
    (tid sid : Nat) (e : String) (now : Int) (u : User)
    (hu : findStudent users e = some u)
    (hnone : latest_class_start records tid sid = none) :
    punch users records tid sid e Action.punch_out now
      = (records, Except.error PunchError.noActiveSession) := by
  simp [punch, hu, hnone]

/-- Witness for C5: a store with records only for an unrelated pairing. -/
theorem C5_witness :
    punch exUsers otherPairRecords 1 2 "E1" Action.punch_out 100
      = (otherPairRecords, Except.error PunchError.noActiveSession) :=
  C5_punch_out_no_session exUsers otherPairRecords 1 2 "E1" 100
    ⟨7, "E1", "A", Role.student⟩ rfl rfl

/-! ### C10: punch-out with an unknown enrollment number -/

/-- C10: a `punch_out` whose enrollment number does not identify an
existing student fails with the student-not-found error and finalizes
nothing — the store is returned unchanged — even when an active session
exists for the (teacher, subject) pairing. -/
theorem C10_punch_out_unknown_student (users : List User)
    (records : List AttendanceRecord) (tid sid : Nat) (e : String) (now : Int)
    (hnf : findStudent users e = none) :
    punch users records tid sid e Action.punch_out now
      = (records, Except.error PunchError.studentNotFound) := by
  simp [punch, hnf]

/-- Witness for C10: an active session exists, yet the unknown enrollment
number makes `punch_out` fail without finalizing it. -/
theorem C10_witness :
    (latest_class_start exRecords 1 2).isSome = true ∧
    punch exUsers exRecords 1 2 "E9" Action.punch_out 2000
      = (exRecords, Except.error PunchError.studentNotFound) :=
  ⟨rfl, C10_punch_out_unknown_student exUsers exRecords 1 2 "E9" 2000 rfl⟩

/-! ### C4: duplicate punch-in into an active session -/

/-- C4: a `punch_in` into an active session (gap < 1 hour) by a student who
already has a record for this (teacher, subject) pairing with
`punch_in_time >= latest_class_start` is rejected with the already-punched
error and the store is returned unchanged: no record created, none
mutated. -/
theorem C4_duplicate_rejected (users : List User) (records : List AttendanceRecord)
    (tid sid : Nat) (e : String) (now t : Int) (u : User)
    (hu : findStudent users e = some u)
    (ht : latest_class_start records tid sid = some t)
    (hgap : now - t < 3600)
    (hdup : records.any (dupPred u.id tid sid t) = true) :
    punch users records tid sid e Action.punch_in now
      = (records, Except.error PunchError.alreadyPunched) := by
  simp [punch, hu, ht, activeLatest, hgap, hdup]

/-- Witness for C4: student 7 punches in again 400 s after opening the
session. -/
theorem C4_witness :
    punch exUsers exRecords 1 2 "E1" Action.punch_in 1400
      = (exRecords, Except.error PunchError.alreadyPunched) :=
  C4_duplicate_rejected exUsers exRecords 1 2 "E1" 1400 1000
    ⟨7, "E1", "A", Role.student⟩ rfl rfl (by decide) rfl

/-! ### C2: status assignment inside an active session -/

/-- C2: a `punch_in` into an active session (gap since
`latest_class_start` strictly under 1 hour) by a student with no record in
that session creates one record, with status Present when the gap is at
most 5 minutes and Late when it exceeds 5 minutes; a punch with a gap of
1 hour or more does not join the old session — it starts a new one. -/
theorem C2_active_session_status (users : List User) (records : List AttendanceRecord)
    (tid sid : Nat) (e : String) (now t : Int) (u : User)
    (hu : findStudent users e = some u)
    (ht : latest_class_start records tid sid = some t)
    (hnodup : records.any (dupPred u.id tid sid t) = false) :
    (now - t < 3600 →
      punch users records tid sid e Action.punch_in now
        = (records ++ [joinRecord u.id sid tid now t],
           Except.ok (PunchOutcome.punchedIn (joinRecord u.id sid tid now t)))) ∧
    (now - t ≤ 300 → (joinRecord u.id sid tid now t).status = Status.present) ∧
    (300 < now - t → (joinRecord u.id sid tid now t).status = Status.late) ∧
    (3600 ≤ now - t →
      punch users records tid sid e Action.punch_in now
        = (records ++ [newSessionRecord u.id sid tid now],
           Except.ok (PunchOutcome.newSession (newSessionRecord u.id sid tid now)))) := by
  refine ⟨fun h => ?_, fun h => ?_, fun h => ?_, fun h => ?_⟩
  · simp [punch, hu, ht, activeLatest, h, hnodup]
  · simp [joinRecord, show ¬ (300 < now - t) by omega]
  · simp [joinRecord, h]
  · simp [punch, hu, ht, activeLatest, show ¬ (now - t < 3600) by omega]

/-- Witness for C2: student 8 joins the session opened at 1000 — at 1400
the record is Late, at 1200 it would be Present. -/
theorem C2_witness :
    punch exUsers exRecords 1 2 "E2" Action.punch_in 1400
      = (exRecords ++ [joinRecord 8 2 1 1400 1000],
         Except.ok (PunchOutcome.punchedIn (joinRecord 8 2 1 1400 1000))) ∧
    (joinRecord 8 2 1 1400 1000).status = Status.late ∧
    (joinRecord 8 2 1 1200 1000).status = Status.present := by
  have h := C2_active_session_status exUsers exRecords 1 2 "E2" 1400 1000
    ⟨8, "E2", "B", Role.student⟩ rfl rfl rfl
  have h2 := C2_active_session_status exUsers exRecords 1 2 "E2" 1200 1000
    ⟨8, "E2", "B", Role.student⟩ rfl rfl rfl
  exact ⟨h.1 (by decide), h.2.2.1 (by decide), h2.2.1 (by decide)⟩

/-! ### C7: percentage conventions of `student_dashboard` -/

lemma percentage_total_zero (a : Nat) : percentage a 0 = 100 := by
  simp [percentage]

lemma percentage_self (t : Nat) : percentage t t = 100 := by
  rcases Nat.eq_zero_or_pos t with h | h
  · simp [h, percentage]
  · have ht : ((t : ℚ)) ≠ 0 := by exact_mod_cast h.ne'
    simp [percentage, h, div_self ht]

lemma percentage_zero_attended (t : Nat) (h : 0 < t) : percentage 0 t = 0 := by
  simp [percentage, h]

/-- C7: per-subject and overall percentages follow the conventions of
lines 780–791: zero total gives 100, attended = total gives 100, zero
attended with positive total gives 0, and the low-attendance flag holds
exactly when the overall percentage is strictly below 75. -/
theorem C7_percentage_rules (records : List AttendanceRecord) (student_id sub_id : Nat) :
    (subjectTotal records student_id sub_id = 0 →
       subjectPercentage records student_id sub_id = 100) ∧
    (subjectAttended records student_id sub_id = subjectTotal records student_id sub_id →
       subjectPercentage records student_id sub_id = 100) ∧
    (subjectAttended records student_id sub_id = 0 →
       0 < subjectTotal records student_id sub_id →
       subjectPercentage records student_id sub_id = 0) ∧
    (totalClasses records student_id = 0 → overallPercentage records student_id = 100) ∧
    (totalAttended records student_id = totalClasses records student_id →
       overallPercentage records student_id = 100) ∧
    (totalAttended records student_id = 0 → 0 < totalClasses records student_id →
       overallPercentage records student_id = 0) ∧
    (low_attendance records student_id = true ↔
       overallPercentage records student_id < 75) := by
  refine ⟨fun h => ?_, fun h => ?_, fun h1 h2 => ?_, fun h => ?_, fun h => ?_,
    fun h1 h2 => ?_, ?_⟩
  · rw [subjectPercentage, h]; exact percentage_total_zero _
  · rw [subjectPercentage, h]; exact percentage_self _
  · rw [subjectPercentage, h1]; exact percentage_zero_attended _ h2
  · rw [overallPercentage, h]; exact percentage_total_zero _
  · rw [overallPercentage, h]; exact percentage_self _
  · rw [overallPercentage, h1]; exact percentage_zero_attended _ h2
  · simp [low_attendance]

/-- A single Late record of student 1 in subject 1 (teacher 1). -/
def lateOnlyRecords : List AttendanceRecord := [⟨1, 1, 1, 0, none, Status.late⟩]

/-- Witness for C7: each convention exercised on a concrete store. -/
theorem C7_witness :
    subjectPercentage ([] : List AttendanceRecord) 1 1 = 100 ∧
    subjectPercentage exRecords 7 2 = 100 ∧
    subjectPercentage lateOnlyRecords 1 1 = 0 ∧
    (low_attendance lateOnlyRecords 1 = true ↔
       overallPercentage lateOnlyRecords 1 < 75) := by
  refine ⟨?_, ?_, ?_, ?_⟩
  · exact (C7_percentage_rules [] 1 1).1 rfl
  · exact (C7_percentage_rules exRecords 7 2).2.1 rfl
  · exact (C7_percentage_rules lateOnlyRecords 1 1).2.2.1 rfl (by decide)
  · exact (C7_percentage_rules lateOnlyRecords 1 1).2.2.2.2.2.2

/-! ### C1: Late arrivals in the student summary -/

/-- Counterexample to C1: every record of student 1 is Present-or-Late
(it is Late), yet attended differs from total and the subject percentage
is not 100 — `student_dashboard` (line 771) counts only Present records as
attended, so Late arrivals do lower the percentage. -/
theorem C1_counterexample :
    (∀ r ∈ lateOnlyRecords, r.status = Status.present ∨ r.status = Status.late) ∧
    ¬ (subjectAttended lateOnlyRecords 1 1 = subjectTotal lateOnlyRecords 1 1) ∧
    ¬ (subjectPercentage lateOnlyRecords 1 1 = 100) := by
  refine ⟨by decide, by decide, ?_⟩
  have h : subjectPercentage lateOnlyRecords 1 1 = 0 := by
    rw [subjectPercentage, show subjectAttended lateOnlyRecords 1 1 = 0 from rfl,
      show subjectTotal lateOnlyRecords 1 1 = 1 from rfl]
    exact percentage_zero_attended 1 (by decide)
  rw [h]; norm_num

lemma attended_add_late (l : List AttendanceRecord) (sub_id : Nat) :
    (l.filter (fun r => r.subject_id == sub_id && r.status == Status.present)).length +
      (l.filter (fun r => r.subject_id == sub_id && r.status == Status.late)).length
      = (l.filter (fun r => r.subject_id == sub_id)).length := by
  induction l with
  | nil => rfl
  | cons r rs ih =>
    cases hsub : (r.subject_id == sub_id) <;> cases hst : r.status <;>
      simp [List.filter_cons, hsub, hst] <;> omega

/-- C1 (amended): in `student_dashboard` a Late record counts toward the
subject's total but not toward attended — attended counts exactly the
Present records — so attended + (number of Late records) = total, and any
Late record makes attended strictly smaller than total. -/
theorem C1_late_in_total_not_attended (records : List AttendanceRecord)
    (student_id sub_id : Nat) :
    subjectAttended records student_id sub_id + subjectLate records student_id sub_id
      = subjectTotal records student_id sub_id ∧
    (0 < subjectLate records student_id sub_id →
      subjectAttended records student_id sub_id < subjectTotal records student_id sub_id) := by
  have h : subjectAttended records student_id sub_id + subjectLate records student_id sub_id
      = subjectTotal records student_id sub_id :=
    attended_add_late (studentRecords records student_id) sub_id
  exact ⟨h, fun hl => by omega⟩

/-! ### C6: the finalization frame of punch-out -/

lemma getD_map_lt (f : AttendanceRecord → AttendanceRecord) (l : List AttendanceRecord)
    (i : Nat) (h : i < l.length) :
    (l.map f).getD i default = f (l.getD i default) := by
  rw [List.getD_eq_getElem?_getD, List.getD_eq_getElem?_getD, List.getElem?_map,
    List.getElem?_eq_getElem h]
  simp

/-- C6: a successful `punch_out` at time `now` stamps `punch_out_time = now`
on exactly the records of the (teacher, subject) pairing with
`punch_in_time >= latest_class_start - 5 min` and no punch-out yet; every
other record is unchanged in every field, the store keeps its length (and
positions), and the reported count equals the number of records so
finalized. -/
theorem C6_finalize_frame (users : List User) (records : List AttendanceRecord)
    (tid sid : Nat) (e : String) (now t : Int) (u : User)
    (hu : findStudent users e = some u)
    (ht : latest_class_start records tid sid = some t) :
    (punch users records tid sid e Action.punch_out now).2
      = Except.ok (PunchOutcome.finalized
          ((records.filter (finalizeCond tid sid t)).length)) ∧
    (punch users records tid sid e Action.punch_out now).1.length = records.length ∧
    ∀ i, i < records.length →
      (finalizeCond tid sid t (records.getD i default) = true →
        (punch users records tid sid e Action.punch_out now).1.getD i default
          = { records.getD i default with punch_out_time := some now }) ∧
      (finalizeCond tid sid t (records.getD i default) = false →
        (punch users records tid sid e Action.punch_out now).1.getD i default
          = records.getD i default) := by
  have hp : punch users records tid sid e Action.punch_out now
      = (records.map (fun r => if finalizeCond tid sid t r
           then { r with punch_out_time := some now } else r),
         Except.ok (PunchOutcome.finalized
           ((records.filter (finalizeCond tid sid t)).length))) := by
    simp [punch, hu, ht]
  refine ⟨by rw [hp], by simp [hp], fun i hi => ⟨fun hc => ?_, fun hc => ?_⟩⟩
  · simp only [hp]
    rw [getD_map_lt _ _ i hi, if_pos hc]
  · simp only [hp]
    rw [getD_map_lt _ _ i hi, if_neg (by simp only [hc]; decide)]

/-- A store with an open in-window record, an already closed record, and
a record of an unrelated pairing. -/
def C6records : List AttendanceRecord :=
  [⟨7, 2, 1, 1000, none, Status.present⟩,
   ⟨8, 2, 1, 900, some 950, Status.present⟩,
   ⟨7, 9, 9, 1000, none, Status.present⟩]

/-- Witness for C6: only the open in-window record is stamped; the closed
record and the unrelated pairing's record stay untouched. -/
theorem C6_witness :
    (punch exUsers C6records 1 2 "E1" Action.punch_out 2000).2
      = Except.ok (PunchOutcome.finalized 1) ∧
    (punch exUsers C6records 1 2 "E1" Action.punch_out 2000).1.getD 0 default
      = { (C6records.getD 0 default) with punch_out_time := some 2000 } ∧
    (punch exUsers C6records 1 2 "E1" Action.punch_out 2000).1.getD 1 default
      = C6records.getD 1 default ∧
    (punch exUsers C6records 1 2 "E1" Action.punch_out 2000).1.getD 2 default
      = C6records.getD 2 default := by
  have h := C6_finalize_frame exUsers C6records 1 2 "E1" 2000 1000
    ⟨7, "E1", "A", Role.student⟩ rfl rfl
  refine ⟨?_, ?_, ?_, ?_⟩
  · rw [h.1]; rfl
  · exact (h.2.2 0 (by decide)).1 rfl
  · exact (h.2.2 1 (by decide)).2 rfl
  · exact (h.2.2 2 (by decide)).2 rfl

/-! ### C9: once set, punch-out time and status never change -/

lemma getD_append_lt (l l2 : List AttendanceRecord) (i : Nat) (h : i < l.length) :
    (l ++ l2).getD i default = l.getD i default := by
  rw [List.getD_eq_getElem?_getD, List.getD_eq_getElem?_getD, List.getElem?_append_left h]

/-- Any single request leaves the store unchanged, appends one record, or
maps the finalization stamp over it. -/
lemma punch_store_shape (users : List User) (records : List AttendanceRecord)
    (tid sid : Nat) (e : String) (a : Action) (now : Int) :
    (punch users records tid sid e a now).1 = records ∨
    (∃ r, (punch users records tid sid e a now).1 = records ++ [r]) ∨
    (∃ t, (punch users records tid sid e a now).1
        = records.map (fun r => if finalizeCond tid sid t r
            then { r with punch_out_time := some now } else r)) := by
  rcases hf : findStudent users e with _ | u
  · left; simp [punch, hf]
  · cases a with
    | punch_in =>
      rcases hal : activeLatest (latest_class_start records tid sid) now with _ | t
      · right; left
        exact ⟨newSessionRecord u.id sid tid now, by simp [punch, hf, hal]⟩
      · cases hd : records.any (dupPred u.id tid sid t) with
        | true => left; simp [punch, hf, hal, hd]
        | false =>
          right; left
          exact ⟨joinRecord u.id sid tid now t, by simp [punch, hf, hal, hd]⟩
    | punch_out =>
      rcases hl : latest_class_start records tid sid with _ | t
      · left; simp [punch, hf, hl]
      · right; right; exact ⟨t, by simp [punch, hf, hl]⟩

/-- One request preserves the length lower bound, every existing record's
status, and every punch-out stamp already set. -/
lemma applyOp_preserves (users : List User) (records : List AttendanceRecord) (op : Op)
    (i : Nat) (h : i < records.length) :
    records.length ≤ (applyOp users records op).length ∧
    ((applyOp users records op).getD i default).status
      = (records.getD i default).status ∧
    ∀ t, (records.getD i default).punch_out_time = some t →
      ((applyOp users records op).getD i default).punch_out_time = some t := by
  rcases punch_store_shape users records op.teacher_id op.subject_id
    op.enrollment_number op.action op.now with hs | ⟨r, hs⟩ | ⟨t0, hs⟩
  · have hm : applyOp users records op = records := hs
    rw [hm]
    exact ⟨le_refl _, rfl, fun t ht => ht⟩
  · have hm : applyOp users records op = records ++ [r] := hs
    rw [hm, getD_append_lt _ _ i h]
    exact ⟨by simp, rfl, fun t ht => ht⟩
  · have hm : applyOp users records op
        = records.map (fun x => if finalizeCond op.teacher_id op.subject_id t0 x
            then { x with punch_out_time := some op.now } else x) := hs
    refine ⟨by rw [hm]; simp, ?_, ?_⟩
    · rw [hm, getD_map_lt _ _ i h]
      split <;> rfl
    · intro t ht
      have hcond : ¬ (finalizeCond op.teacher_id op.subject_id t0
          (records.getD i default) = true) := by
        unfold finalizeCond
        rw [ht]
        simp
      rw [hm, getD_map_lt _ _ i h, if_neg hcond]
      exact ht

/-- C9: over any sequence of requests to the punch route, a record's
status never changes after creation, and its punch-out time, once set, is
never revised — finalization changes only `punch_out_time` of open
records. -/
theorem C9_invariant (users : List User) (ops : List Op)
    (records : List AttendanceRecord) (i : Nat) (h : i < records.length) :
    records.length ≤ (applyOps users ops records).length ∧
    ((applyOps users ops records).getD i default).status
      = (records.getD i default).status ∧
    ∀ t, (records.getD i default).punch_out_time = some t →
      ((applyOps users ops records).getD i default).punch_out_time = some t := by
  induction ops generalizing records with
  | nil => exact ⟨le_refl _, rfl, fun t ht => ht⟩
  | cons op ops ih =>
    have h1 := applyOp_preserves users records op i h
    have h2 := ih (applyOp users records op) (lt_of_lt_of_le h h1.1)
    have hstep : applyOps users (op :: ops) records
        = applyOps users ops (applyOp users records op) := rfl
    rw [hstep]
    exact ⟨le_trans h1.1 h2.1, h2.2.1.trans h1.2.1,
      fun t ht => h2.2.2 t (h1.2.2 t ht)⟩

/-- A record already finalized at time 50. -/
def C9records : List AttendanceRecord := [⟨7, 2, 1, 1000, some 50, Status.present⟩]

/-- A later session is opened at 9000 and finalized at 9500. -/
def C9ops : List Op :=
  [⟨1, 2, "E2", Action.punch_in, 9000⟩, ⟨1, 2, "E1", Action.punch_out, 9500⟩]

/-- Witness for C9: the old record's punch-out stamp of 50 survives a
later session's punch-in and punch-out. -/
theorem C9_witness :
    ((applyOps exUsers C9ops C9records).getD 0 default).punch_out_time = some 50 :=
  (C9_invariant exUsers C9ops C9records 0 (by decide)).2.2 50 rfl

/-! ### C8: the CSV report rows -/

/-- The subject whose report is exported in the witnesses. -/
def exSubject : Subject := ⟨2, "CS101"⟩

/-- Counterexample to C8: with one open (`punch_out_time` null) record in
the subject, the exported CSV still has a data row for it — line 975
fetches all records of the subject without filtering on
`punch_out_time`, so the report has one row per record, not one row per
finalized record. -/
theorem C8_counterexample :
    ¬ ((download_report exUsers exRecords exSubject).length
        = 1 + ((exRecords.filter (fun r => r.subject_id == exSubject.id
              && !(r.punch_out_time == none))).length)) := by
  decide

/-- C8 (amended): the CSV report starts with the exact header row and
contains exactly one data row per attendance record of the subject,
finalized or not — an open record renders `'N/A'` in the Punch Out Time
column — sorted by punch-in time descending. -/
theorem C8_report_structure (users : List User) (records : List AttendanceRecord)
    (subject : Subject) :
    (download_report users records subject).head? = some reportHeader ∧
    (download_report users records subject).length
      = 1 + (records.filter (fun r => r.subject_id == subject.id
            && (findUserById users r.student_id).isSome)).length ∧
    (reportRecords users records subject.id).Perm
      (records.filter (fun r => r.subject_id == subject.id
        && (findUserById users r.student_id).isSome)) ∧
    List.Sorted punchInGE (reportRecords users records subject.id) ∧
    ∀ r ∈ reportRecords users records subject.id,
      r.punch_out_time = none → (reportRow users subject r).getD 5 "" = "N/A" := by
  refine ⟨rfl, ?_, ?_, ?_, ?_⟩
  · have hlen : (reportRecords users records subject.id).length
        = (records.filter (fun r => r.subject_id == subject.id
            && (findUserById users r.student_id).isSome)).length :=
      (List.perm_insertionSort punchInGE _).length_eq
    simp [download_report, hlen]
    omega
  · exact List.perm_insertionSort punchInGE _
  · exact List.sorted_insertionSort punchInGE _
  · intro r _ hopen
    simp [reportRow, hopen]

/-- Witness for C8's amended statement on the one-open-record store. -/
theorem C8_witness :
    (download_report exUsers exRecords exSubject).head? = some reportHeader ∧
    (reportRow exUsers exSubject (exRecords.getD 0 default)).getD 5 "" = "N/A" := by
  have h := C8_report_structure exUsers exRecords exSubject
  exact ⟨h.1, h.2.2.2.2 _ (by decide) rfl⟩

/-! ### C3: new sessions and sequences of them -/

lemma maxPunchIn_snoc (l : List AttendanceRecord) (r : AttendanceRecord) :
    maxPunchIn (l ++ [r]) = some (match maxPunchIn l with
      | none => r.punch_in_time
      | some m => max m r.punch_in_time) := by
  induction l with
  | nil => rfl
  | cons x xs ih =>
    rcases hm : maxPunchIn xs with _ | m <;>
      simp [List.cons_append, maxPunchIn, ih, hm, max_assoc]

lemma latest_snoc_match (records : List AttendanceRecord) (r : AttendanceRecord)
    (tid sid : Nat) (hm : matchesPair tid sid r = true) :
    latest_class_start (records ++ [r]) tid sid
      = some (match latest_class_start records tid sid with
          | none => r.punch_in_time
          | some t => max t r.punch_in_time) := by
  unfold latest_class_start
  rw [List.filter_append]
  have hr : List.filter (matchesPair tid sid) [r] = [r] := by simp [hm]
  rw [hr, maxPunchIn_snoc]

lemma activeLatest_none_of (latest : Option Int) (now : Int)
    (h : latest = none ∨ ∃ t, latest = some t ∧ 3600 ≤ now - t) :
    activeLatest latest now = none := by
  rcases h with h | ⟨t, ht, hge⟩
  · rw [h]; rfl
  · rw [ht]
    simp [activeLatest]
    omega

/-- The new-session branch of the punch-in handler (lines 924–934). -/
lemma punch_in_new_session (users : List User) (records : List AttendanceRecord)
    (tid sid : Nat) (e : String) (now : Int) (u : User)
    (hu : findStudent users e = some u)
    (hal : activeLatest (latest_class_start records tid sid) now = none) :
    punch users records tid sid e Action.punch_in now
      = (records ++ [newSessionRecord u.id sid tid now],
         Except.ok (PunchOutcome.newSession (newSessionRecord u.id sid tid now))) := by
  simp [punch, hu, hal]

/-- The record created when the punch-in (enrollment, time) starts a new
session. -/
def mkNewFor (users : List User) (tid sid : Nat) (p : String × Int) : AttendanceRecord :=
  newSessionRecord (((findStudent users p.1).getD default).id) sid tid p.2

lemma punchInSeq_fresh (users : List User) (tid sid : Nat)
    (l : List (String × Int)) (init : List AttendanceRecord)
    (hres : ∀ p ∈ l, (findStudent users p.1).isSome = true)
    (hchain : List.Chain' (fun p q : String × Int => p.2 + 3600 ≤ q.2) l)
    (hinit : ∀ t, latest_class_start init tid sid = some t →
       ∀ p ∈ l.head?, t + 3600 ≤ p.2) :
    punchInSeq users tid sid l init = init ++ l.map (mkNewFor users tid sid) := by
  induction l generalizing init with
  | nil => simp [punchInSeq]
  | cons p l ih =>
    obtain ⟨u, hu⟩ := Option.isSome_iff_exists.mp (hres p (by simp))
    have hal : activeLatest (latest_class_start init tid sid) p.2 = none := by
      apply activeLatest_none_of
      rcases hl : latest_class_start init tid sid with _ | t
      · exact Or.inl rfl
      · exact Or.inr ⟨t, rfl, by have := hinit t hl p (by simp); omega⟩
    have hstep : punchInSeq users tid sid (p :: l) init
        = punchInSeq users tid sid l (init ++ [newSessionRecord u.id sid tid p.2]) := by
      simp only [punchInSeq, List.foldl_cons,
        punch_in_new_session users init tid sid p.1 p.2 u hu hal]
    rw [hstep, ih (init ++ [newSessionRecord u.id sid tid p.2])
        (fun q hq => hres q (by simp [hq]))
        ((List.chain'_cons'.mp hchain).2) ?hinit]
    · simp [mkNewFor, hu]
    case hinit =>
      intro t' hlat q hq
      have hm2 : matchesPair tid sid (newSessionRecord u.id sid tid p.2) = true := by
        simp [matchesPair, newSessionRecord]
      rw [latest_snoc_match init _ tid sid hm2] at hlat
      have hq2 : p.2 + 3600 ≤ q.2 := (List.chain'_cons'.mp hchain).1 q hq
      rcases hl : latest_class_start init tid sid with _ | t0
      · rw [hl] at hlat
        simp only [newSessionRecord, Option.some.injEq] at hlat
        omega
      · rw [hl] at hlat
        have hgap := hinit t0 hl p (by simp)
        simp only [newSessionRecord, Option.some.injEq] at hlat
        have hmax : max t0 p.2 = p.2 := max_eq_right (by omega)
        rw [hmax] at hlat
        omega

/-- C3: a punch-in with no prior record for the (teacher, subject)
pairing, or arriving at least 1 hour after `latest_class_start`, starts a
brand-new session: exactly one record is appended, with status Present and
`punch_in_time = now`; moreover, over any sequence of punch-ins with
consecutive gaps of at least 1 hour into a pairing with no prior records,
every punch starts its own distinct session — one fresh Present record
per punch, with no merging and no rejection. -/
theorem C3_new_session (users : List User) (records : List AttendanceRecord)
    (tid sid : Nat) (e : String) (now : Int) (u : User)
    (hu : findStudent users e = some u)
    (hnew : latest_class_start records tid sid = none ∨
      ∃ t, latest_class_start records tid sid = some t ∧ 3600 ≤ now - t) :
    (punch users records tid sid e Action.punch_in now
      = (records ++ [newSessionRecord u.id sid tid now],
         Except.ok (PunchOutcome.newSession (newSessionRecord u.id sid tid now)))) ∧
    (newSessionRecord u.id sid tid now).status = Status.present ∧
    (newSessionRecord u.id sid tid now).punch_in_time = now ∧
    ∀ (l : List (String × Int)) (init : List AttendanceRecord),
      (∀ p ∈ l, (findStudent users p.1).isSome = true) →
      List.Chain' (fun p q : String × Int => p.2 + 3600 ≤ q.2) l →
      latest_class_start init tid sid = none →
      punchInSeq users tid sid l init = init ++ l.map (mkNewFor users tid sid) := by
  refine ⟨?_, rfl, rfl, ?_⟩
  · exact punch_in_new_session users records tid sid e now u hu
      (activeLatest_none_of _ _ hnew)
  · intro l init hres hchain hnone
    exact punchInSeq_fresh users tid sid l init hres hchain
      (fun t hlat => by rw [hnone] at hlat; cases hlat)

/-- Witness for C3: two punch-ins 4000 s apart each start a session. -/
theorem C3_witness :
    punch exUsers [] 1 2 "E1" Action.punch_in 1000
      = ([newSessionRecord 7 2 1 1000],
         Except.ok (PunchOutcome.newSession (newSessionRecord 7 2 1 1000))) ∧
    punchInSeq exUsers 1 2 [("E1", 1000), ("E2", 5000)] []
      = [newSessionRecord 7 2 1 1000, newSessionRecord 8 2 1 5000] := by
  have h := C3_new_session exUsers [] 1 2 "E1" 1000 ⟨7, "E1", "A", Role.student⟩
    rfl (Or.inl rfl)
  constructor
  · simpa using h.1
  · have h2 := h.2.2.2 [("E1", 1000), ("E2", 5000)] [] (by decide)
      (by simp [List.chain'_cons']) rfl
    rw [h2]
    decide

/-- Witness for C1's amended statement on the concrete Late-only store. -/
theorem C1_witness :
    subjectAttended lateOnlyRecords 1 1 + subjectLate lateOnlyRecords 1 1
      = subjectTotal lateOnlyRecords 1 1 ∧
    subjectAttended lateOnlyRecords 1 1 < subjectTotal lateOnlyRecords 1 1 :=
  ⟨(C1_late_in_total_not_attended lateOnlyRecords 1 1).1,
   (C1_late_in_total_not_attended lateOnlyRecords 1 1).2 (by decide)⟩

end SAMS
